import Mathlib

/-!
Verification of the language-interpreter core of `text2num-rs`
(`src/lang/mod.rs`): the morphological-marker model, the
`LangInterpreter` contract with its default methods (`format_and_value`,
`format_decimal_and_value`, `exec_group`, `basic_annotate`), the
`Language` dispatcher produced by `declare_languages!`, and the
`get_interpreter_for` registry lookup.

The crate modules `crate::error` and `crate::digit_string` are not part
of the sources at hand; the `Error` taxonomy and the `DigitString`
read-side operations used by the default trait methods are modelled from
the specification, as documented on each such definition.  Numeric
values that the Rust code exposes as `f64` are modelled as rationals
(`ℚ`): every claim under study concerns which components are combined,
not floating-point rounding.
-/

namespace Text2Num

/-- Modelled from the spec: the error taxonomy of `crate::error::Error`
(§7: NotANumber, Incomplete, Overlap, Inconsistent). -/
inductive Error where
  | NotANumber : Error
  | Incomplete : Error
  | Overlap : Error
  | Inconsistent : Error
  deriving Repr, DecidableEq

/-- The morphological markers that differentiate ordinals or fractions
from cardinals (`MorphologicalMarker` in `src/lang/mod.rs`).  The Rust
suffixes are `&'static str`; here plain strings. -/
inductive MorphologicalMarker where
  | Ordinal (suffix : String) : MorphologicalMarker
  | Fraction (suffix : String) : MorphologicalMarker
  | None : MorphologicalMarker
  deriving Repr, DecidableEq

namespace MorphologicalMarker

/-- Rust method `MorphologicalMarker::is_ordinal`. -/
def is_ordinal : MorphologicalMarker → Bool
  | Ordinal _ => true
  | _ => false

/-- Rust method `MorphologicalMarker::is_fraction`. -/
def is_fraction : MorphologicalMarker → Bool
  | Fraction _ => true
  | _ => false

/-- Rust method `MorphologicalMarker::is_none`. -/
def is_none : MorphologicalMarker → Bool
  | None => true
  | _ => false

end MorphologicalMarker

/-- Modelled from the spec: the digit accumulator
`crate::digit_string::DigitString` — "an ordered decimal digit sequence
being assembled" together with "an attached morphological marker".  The
commit-tracking and validity bookkeeping internal to the accumulator is
not needed by the operations under study (the default trait methods only
read the digit sequence and the marker, and `exec_group` only creates an
empty accumulator and threads it through `apply`). -/
structure DigitString where
  digits : List Nat
  marker : MorphologicalMarker
  deriving Repr, DecidableEq

namespace DigitString

/-- Modelled from the spec: `DigitString::new()` creates the accumulator
"empty at the start of one numeral group". -/
def new : DigitString := { digits := [], marker := MorphologicalMarker.None }

/-- Modelled from the spec: integral value extraction `DigitString::parse`
— "the digit sequence, whenever non-empty, denotes a syntactically valid
unsigned decimal integer". -/
def parse (b : DigitString) : Nat :=
  b.digits.foldl (fun acc d => 10 * acc + d) 0

/-- Modelled from the spec: decimal-tail value extraction
`DigitString::parse_decimal` — "value = digits ÷ 10^digit-count, used
when the accumulator holds only the fractional part". -/
def parse_decimal (b : DigitString) : ℚ :=
  (b.parse : ℚ) / (10 : ℚ) ^ b.digits.length

/-- Modelled from the spec: the `Display` rendering of a `DigitString`
used by `format!("{b}...")` — the digit text itself; the ordinal suffix
is appended separately by `format_and_value`. -/
def text (b : DigitString) : String :=
  String.mk (b.digits.map (fun d => Char.ofNat (d + 48)))

end DigitString

/-- Tokens as required by the `BasicAnnotate` trait: a read view of the
lower-cased text and a writable "not a numeral" flag. -/
structure Token where
  text_lowercase : String
  nan : Bool
  deriving Repr, DecidableEq

/-- The per-language interpretation contract: the methods of the
`LangInterpreter` trait, as implemented by one concrete language.  Rust
`fn apply(&self, &str, &mut DigitString) -> Result<(), Error>` becomes a
state-passing function returning the (possibly mutated) accumulator with
the result; `f64` values are modelled as `ℚ`. -/
structure LangInterpreter where
  apply : String → DigitString → DigitString × Except Error Unit
  apply_decimal : String → DigitString → DigitString × Except Error Unit
  get_morph_marker : String → MorphologicalMarker
  check_decimal_separator : String → Option Char
  format_and_value : DigitString → String × ℚ
  format_decimal_and_value : DigitString → DigitString → Char → String × ℚ
  is_linking : String → Bool
  basic_annotate : List Token → List Token

/-- The default body of `LangInterpreter::format_and_value`
(`src/lang/mod.rs:86-93`): value is `b.parse() as f64`; text is
`format!("{b}{marker}")` when the marker is `Ordinal(marker)`, and
`b.to_string()` otherwise. -/
def default_format_and_value (b : DigitString) : String × ℚ :=
  let val : ℚ := (b.parse : ℚ)
  match b.marker with
  | MorphologicalMarker.Ordinal marker => (b.text ++ marker, val)
  | _ => (b.text, val)

/-- The default body of `LangInterpreter::format_decimal_and_value`
(`src/lang/mod.rs:96-104`): value is `int.parse() as f64 +
dec.parse_decimal()`; text is `format!("{int}{sep}{dec}")`. -/
def default_format_decimal_and_value (int : DigitString) (dec : DigitString)
    (sep : Char) : String × ℚ :=
  let value : ℚ := (int.parse : ℚ) + dec.parse_decimal
  (int.text ++ String.mk [sep] ++ dec.text, value)

/-- The loop body of the default `LangInterpreter::exec_group`
(`src/lang/mod.rs:114-129`): fold `apply` over the remaining tokens,
threading the accumulator and the flag recording whether the most recent
call returned `Incomplete`; any other error returns immediately. -/
def exec_group_loop (L : LangInterpreter) (b : DigitString)
    (incomplete : Bool) : List String → Except Error DigitString
  | [] =>
    if incomplete then Except.error Error.Incomplete else Except.ok b
  | token :: rest =>
    match L.apply token b with
    | (b2, Except.error Error.Incomplete) => exec_group_loop L b2 true rest
    | (b2, Except.ok ()) => exec_group_loop L b2 false rest
    | (_, Except.error e) => Except.error e

/-- The default `LangInterpreter::exec_group` (`src/lang/mod.rs:114-129`):
process the group all-or-nothing, starting from `DigitString::new()` with
the incomplete flag initially `false`. -/
def exec_group (L : LangInterpreter) (group : List String) :
    Except Error DigitString :=
  exec_group_loop L DigitString.new false group

/-- The default body of `LangInterpreter::basic_annotate`
(`src/lang/mod.rs:131`): the empty body leaves the token vector
untouched. -/
def default_basic_annotate (tokens : List Token) : List Token := tokens

/-- Modelled from the spec: the builtin concrete language type `de::German`
is "a stateless value implementing the interpretation contract" — an empty
structure. -/
structure German where
  deriving Repr, DecidableEq

/-- Modelled from the spec: the stateless builtin language `es::Spanish`. -/
structure Spanish where
  deriving Repr, DecidableEq

/-- Modelled from the spec: the stateless builtin language `en::English`. -/
structure English where
  deriving Repr, DecidableEq

/-- Modelled from the spec: the stateless builtin language `fr::French`. -/
structure French where
  deriving Repr, DecidableEq

/-- Modelled from the spec: the stateless builtin language `it::Italian`. -/
structure Italian where
  deriving Repr, DecidableEq

/-- Modelled from the spec: the stateless builtin language `nl::Dutch`. -/
structure Dutch where
  deriving Repr, DecidableEq

/-- Modelled from the spec: the stateless builtin language `pt::Portuguese`. -/
structure Portuguese where
  deriving Repr, DecidableEq

/-- The `Language` enum produced by the `declare_languages!` invocation at
`src/lang/mod.rs:253-261` with every language feature enabled: one
constructor per builtin language, each wrapping the concrete value. -/
inductive Language where
  | German (l : German) : Language
  | Spanish (l : Spanish) : Language
  | English (l : English) : Language
  | French (l : French) : Language
  | Italian (l : Italian) : Language
  | Dutch (l : Dutch) : Language
  | Portuguese (l : Portuguese) : Language
  deriving Repr, DecidableEq

/-- Modelled from the spec: the trait implementations of the seven builtin
languages live in the modules `de.rs` … `pt.rs`, which are not among the
sources at hand.  This record assigns each builtin language its
interpretation-contract implementation; the dispatch theorems hold for
every such assignment. -/
structure LangImpls where
  de : LangInterpreter
  es : LangInterpreter
  en : LangInterpreter
  fr : LangInterpreter
  it : LangInterpreter
  nl : LangInterpreter
  pt : LangInterpreter

namespace Language

/-- Dispatcher method `apply` of `impl LangInterpreter for Language`
(`src/lang/mod.rs:162-170`): match on the variant and call the wrapped
language's `apply`. -/
def apply (impls : LangImpls) : Language → String → DigitString →
    DigitString × Except Error Unit
  | German _ => impls.de.apply
  | Spanish _ => impls.es.apply
  | English _ => impls.en.apply
  | French _ => impls.fr.apply
  | Italian _ => impls.it.apply
  | Dutch _ => impls.nl.apply
  | Portuguese _ => impls.pt.apply

/-- Dispatcher method `apply_decimal` (`src/lang/mod.rs:172-180`). -/
def apply_decimal (impls : LangImpls) : Language → String → DigitString →
    DigitString × Except Error Unit
  | German _ => impls.de.apply_decimal
  | Spanish _ => impls.es.apply_decimal
  | English _ => impls.en.apply_decimal
  | French _ => impls.fr.apply_decimal
  | Italian _ => impls.it.apply_decimal
  | Dutch _ => impls.nl.apply_decimal
  | Portuguese _ => impls.pt.apply_decimal

/-- Dispatcher method `get_morph_marker` (`src/lang/mod.rs:182-190`). -/
def get_morph_marker (impls : LangImpls) : Language → String →
    MorphologicalMarker
  | German _ => impls.de.get_morph_marker
  | Spanish _ => impls.es.get_morph_marker
  | English _ => impls.en.get_morph_marker
  | French _ => impls.fr.get_morph_marker
  | Italian _ => impls.it.get_morph_marker
  | Dutch _ => impls.nl.get_morph_marker
  | Portuguese _ => impls.pt.get_morph_marker

/-- Dispatcher method `check_decimal_separator` (`src/lang/mod.rs:191-199`). -/
def check_decimal_separator (impls : LangImpls) : Language → String →
    Option Char
  | German _ => impls.de.check_decimal_separator
  | Spanish _ => impls.es.check_decimal_separator
  | English _ => impls.en.check_decimal_separator
  | French _ => impls.fr.check_decimal_separator
  | Italian _ => impls.it.check_decimal_separator
  | Dutch _ => impls.nl.check_decimal_separator
  | Portuguese _ => impls.pt.check_decimal_separator

/-- Dispatcher method `format_and_value` (`src/lang/mod.rs:200-208`). -/
def format_and_value (impls : LangImpls) : Language → DigitString →
    String × ℚ
  | German _ => impls.de.format_and_value
  | Spanish _ => impls.es.format_and_value
  | English _ => impls.en.format_and_value
  | French _ => impls.fr.format_and_value
  | Italian _ => impls.it.format_and_value
  | Dutch _ => impls.nl.format_and_value
  | Portuguese _ => impls.pt.format_and_value

/-- Dispatcher method `format_decimal_and_value` (`src/lang/mod.rs:210-218`). -/
def format_decimal_and_value (impls : LangImpls) : Language → DigitString →
    DigitString → Char → String × ℚ
  | German _ => impls.de.format_decimal_and_value
  | Spanish _ => impls.es.format_decimal_and_value
  | English _ => impls.en.format_decimal_and_value
  | French _ => impls.fr.format_decimal_and_value
  | Italian _ => impls.it.format_decimal_and_value
  | Dutch _ => impls.nl.format_decimal_and_value
  | Portuguese _ => impls.pt.format_decimal_and_value

/-- Dispatcher method `is_linking` (`src/lang/mod.rs:219-227`). -/
def is_linking (impls : LangImpls) : Language → String → Bool
  | German _ => impls.de.is_linking
  | Spanish _ => impls.es.is_linking
  | English _ => impls.en.is_linking
  | French _ => impls.fr.is_linking
  | Italian _ => impls.it.is_linking
  | Dutch _ => impls.nl.is_linking
  | Portuguese _ => impls.pt.is_linking

/-- Dispatcher method `basic_annotate` (`src/lang/mod.rs:229-237`). -/
def basic_annotate (impls : LangImpls) : Language → List Token → List Token
  | German _ => impls.de.basic_annotate
  | Spanish _ => impls.es.basic_annotate
  | English _ => impls.en.basic_annotate
  | French _ => impls.fr.basic_annotate
  | Italian _ => impls.it.basic_annotate
  | Dutch _ => impls.nl.basic_annotate
  | Portuguese _ => impls.pt.basic_annotate

/-- The specification side of the dispatch claim: "whichever single
concrete language is currently selected" — the contract implementation of
the concrete language a `Language` value wraps. -/
def selected (impls : LangImpls) : Language → LangInterpreter
  | German _ => impls.de
  | Spanish _ => impls.es
  | English _ => impls.en
  | French _ => impls.fr
  | Italian _ => impls.it
  | Dutch _ => impls.nl
  | Portuguese _ => impls.pt

end Language

/-- The registry lookup `get_interpreter_for` (`src/lang/mod.rs:241-249`)
as expanded from `declare_languages!` with every language feature enabled:
match the ISO code against the seven module names. -/
def get_interpreter_for (language_code : String) : Option Language :=
  if language_code = "de" then some (Language.German {})
  else if language_code = "es" then some (Language.Spanish {})
  else if language_code = "en" then some (Language.English {})
  else if language_code = "fr" then some (Language.French {})
  else if language_code = "it" then some (Language.Italian {})
  else if language_code = "nl" then some (Language.Dutch {})
  else if language_code = "pt" then some (Language.Portuguese {})
  else none

/-- One step of the group-execution fold as the specification words it:
from a running state (or an already-raised error), interpret one word,
recording in the flag "whether the most recent call returned Incomplete"
and turning any other error into the aborting outcome. -/
def exec_step (L : LangInterpreter)
    (st : Except Error (DigitString × Bool)) (w : String) :
    Except Error (DigitString × Bool) :=
  match st with
  | Except.error e => Except.error e
  | Except.ok (b, _) =>
    match L.apply w b with
    | (b2, Except.ok ()) => Except.ok (b2, false)
    | (b2, Except.error Error.Incomplete) => Except.ok (b2, true)
    | (_, Except.error e) => Except.error e

/-- The group-execution procedure stated from the specification's words
(§4.3): "start with an empty accumulator; fold apply over the words in
order, tracking whether the most recent call returned Incomplete", with
any non-Incomplete error aborting the fold. -/
def exec_group_fold (L : LangInterpreter) (ws : List String) :
    Except Error (DigitString × Bool) :=
  ws.foldl (exec_step L) (Except.ok (DigitString.new, false))

/-- Finishing rule of §4.3: a raised error is propagated; a completed fold
whose Incomplete flag is still set fails with Incomplete; otherwise the
finished accumulator is returned. -/
def exec_finish (st : Except Error (DigitString × Bool)) :
    Except Error DigitString :=
  match st with
  | Except.error e => Except.error e
  | Except.ok (_, true) => Except.error Error.Incomplete
  | Except.ok (b, false) => Except.ok b

/-- A call of the default `format_and_value` through the shared reference
of its Rust signature, in state-passing form: the call yields the (text,
value) pair together with the accumulator as the callee leaves it. -/
def format_and_value_call (b : DigitString) :
    (String × ℚ) × DigitString :=
  (default_format_and_value b, b)

/-- A sample contract implementation used to instantiate the universally
quantified theorems on concrete inputs: plain digit words append a digit,
a bare scale word leaves the number open (Incomplete), and a non-numeral
word is rejected with NotANumber. -/
def sample_apply (w : String) (b : DigitString) :
    DigitString × Except Error Unit :=
  if w = "hundred" then (b, Except.error Error.Incomplete)
  else if w = "dogs" then (b, Except.error Error.NotANumber)
  else ({ b with digits := b.digits ++ [2] }, Except.ok ())

/-- A sample language interpreter built from `sample_apply` and the
default renderers. -/
def sample_interp : LangInterpreter where
  apply := sample_apply
  apply_decimal := sample_apply
  get_morph_marker := fun _ => MorphologicalMarker.None
  check_decimal_separator := fun w => if w = "point" then some '.' else none
  format_and_value := default_format_and_value
  format_decimal_and_value := default_format_decimal_and_value
  is_linking := fun w => w == "and"
  basic_annotate := default_basic_annotate

lemma exec_step_error (L : LangInterpreter) (ws : List String) (e : Error) :
    ws.foldl (exec_step L) (Except.error e) = Except.error e := by
  induction ws with
  | nil => rfl
  | cons w ws ih => simpa [exec_step] using ih

lemma exec_group_loop_eq (L : LangInterpreter) (ws : List String) :
    ∀ (b : DigitString) (flag : Bool),
      exec_group_loop L b flag ws =
        exec_finish (ws.foldl (exec_step L) (Except.ok (b, flag))) := by
  induction ws with
  | nil =>
    intro b flag
    cases flag <;> rfl
  | cons w ws ih =>
    intro b flag
    show (match L.apply w b with
      | (b2, Except.error Error.Incomplete) => exec_group_loop L b2 true ws
      | (b2, Except.ok ()) => exec_group_loop L b2 false ws
      | (_, Except.error e) => Except.error e) = _
    rcases h : L.apply w b with ⟨b2, r⟩
    rcases r with e | u
    · cases e with
      | Incomplete =>
        simp only [List.foldl_cons, exec_step, h, ih]
      | NotANumber =>
        simp only [List.foldl_cons, exec_step, h, exec_step_error]
        rfl
      | Overlap =>
        simp only [List.foldl_cons, exec_step, h, exec_step_error]
        rfl
      | Inconsistent =>
        simp only [List.foldl_cons, exec_step, h, exec_step_error]
        rfl
    · cases u
      simp only [List.foldl_cons, exec_step, h, ih]

/-- C1: `exec_group` starts from the empty accumulator, folds `apply` over
the words in order while tracking whether the most recent call returned
Incomplete, propagates any non-Incomplete error, fails with Incomplete
when the flag is still set after the fold, and returns the finished
accumulator otherwise; in particular a group made of a single word whose
`apply` on a fresh accumulator returns Incomplete fails with Incomplete. -/
theorem exec_group_is_tracked_fold (L : LangInterpreter) (ws : List String) :
    exec_group L ws = exec_finish (exec_group_fold L ws)
    ∧ ∀ (w : String) (b2 : DigitString),
        L.apply w DigitString.new = (b2, Except.error Error.Incomplete) →
        exec_group L [w] = Except.error Error.Incomplete := by
  constructor
  · exact exec_group_loop_eq L ws DigitString.new false
  · intro w b2 h
    show exec_group_loop L DigitString.new false [w] = _
    simp [exec_group_loop, h]

/-- Witness for C1: under the sample interpreter, the lone scale word
"hundred" fails with Incomplete. -/
theorem exec_group_is_tracked_fold_witness :
    exec_group sample_interp ["hundred"] = Except.error Error.Incomplete :=
  (exec_group_is_tracked_fold sample_interp ["hundred"]).2 "hundred"
    DigitString.new (by rfl)

/-- C2: group execution fails fast — as soon as one word raises a
non-Incomplete error on the running accumulator, `exec_group` returns
exactly that error, and the result does not depend on the words that
follow. -/
theorem exec_group_fail_fast (L : LangInterpreter) (pre : List String)
    (w : String) (rest : List String) (b : DigitString) (flag : Bool)
    (b2 : DigitString) (e : Error)
    (hpre : exec_group_fold L pre = Except.ok (b, flag))
    (happly : L.apply w b = (b2, Except.error e))
    (hne : e ≠ Error.Incomplete) :
    exec_group L (pre ++ w :: rest) = Except.error e := by
  have h1 : exec_group L (pre ++ w :: rest) =
      exec_finish ((pre ++ w :: rest).foldl (exec_step L)
        (Except.ok (DigitString.new, false))) :=
    exec_group_loop_eq L (pre ++ w :: rest) DigitString.new false
  rw [h1, List.foldl_append]
  have h2 : pre.foldl (exec_step L) (Except.ok (DigitString.new, false)) =
      Except.ok (b, flag) := hpre
  rw [h2, List.foldl_cons]
  have hstep : exec_step L (Except.ok (b, flag)) w = Except.error e := by
    cases e with
    | Incomplete => exact absurd rfl hne
    | NotANumber => simp [exec_step, happly]
    | Overlap => simp [exec_step, happly]
    | Inconsistent => simp [exec_step, happly]
  rw [hstep, exec_step_error]
  rfl

/-- Witness for C2: in the group ["two", "dogs", "five"], the word "dogs"
raises NotANumber and that error is returned whatever follows. -/
theorem exec_group_fail_fast_witness :
    exec_group sample_interp (["two"] ++ "dogs" :: ["five"]) =
      Except.error Error.NotANumber :=
  exec_group_fail_fast sample_interp ["two"] "dogs" ["five"]
    ⟨[2], MorphologicalMarker.None⟩ false
    ⟨[2], MorphologicalMarker.None⟩ Error.NotANumber (by rfl) (by rfl)
    (by decide)

/-- C3: the registry lookup succeeds exactly on the seven supported codes
de, es, en, fr, it, nl, pt, and returns none on every other string. -/
theorem get_interpreter_for_supported (s : String) :
    (get_interpreter_for s).isSome = true ↔
      s ∈ ["de", "es", "en", "fr", "it", "nl", "pt"] := by
  unfold get_interpreter_for
  split_ifs with h1 h2 h3 h4 h5 h6 h7 <;> simp_all

/-- C4: the default `format_and_value` returns the integral extraction of
the accumulator as value, and as text the digit string with the ordinal
suffix appended when the marker is Ordinal, and the plain digit string
otherwise. -/
theorem default_format_and_value_spec (b : DigitString) :
    (default_format_and_value b).2 = (b.parse : ℚ)
    ∧ (∀ s, b.marker = MorphologicalMarker.Ordinal s →
        (default_format_and_value b).1 = b.text ++ s)
    ∧ (b.marker.is_ordinal = false →
        (default_format_and_value b).1 = b.text) := by
  rcases b with ⟨ds, m⟩
  cases m <;> simp [default_format_and_value, MorphologicalMarker.is_ordinal]

/-- Witness for C4: rendering the accumulator holding digits 2, 0 with
marker Ordinal "th" appends the suffix and evaluates to 20. -/
theorem default_format_and_value_spec_witness :
    (default_format_and_value
        ⟨[2, 0], MorphologicalMarker.Ordinal "th"⟩).1 =
      DigitString.text ⟨[2, 0], MorphologicalMarker.Ordinal "th"⟩ ++ "th"
    ∧ (default_format_and_value
        ⟨[2, 0], MorphologicalMarker.Ordinal "th"⟩).2 = 20 := by
  refine ⟨(default_format_and_value_spec _).2.1 "th" rfl, ?_⟩
  rw [(default_format_and_value_spec
    ⟨[2, 0], MorphologicalMarker.Ordinal "th"⟩).1]
  norm_num [DigitString.parse, List.foldl_cons, List.foldl_nil]

/-- C5: the default `format_decimal_and_value` returns as value the
integral extraction of the integral accumulator plus the decimal-tail
extraction of the decimal accumulator, and as text the integral digits,
the separator and the decimal digits concatenated. -/
theorem default_format_decimal_and_value_spec (int dec : DigitString)
    (sep : Char) :
    (default_format_decimal_and_value int dec sep).2 =
      (int.parse : ℚ) + (dec.parse : ℚ) / (10 : ℚ) ^ dec.digits.length
    ∧ (default_format_decimal_and_value int dec sep).1 =
      int.text ++ String.mk [sep] ++ dec.text :=
  ⟨rfl, rfl⟩

/-- C6: the `Language` dispatcher forwards every contract operation to the
concrete language the value wraps, returning exactly that language's
result on the same arguments. -/
theorem language_dispatch_forwards (impls : LangImpls) (lang : Language) :
    (∀ w b, Language.apply impls lang w b =
        (Language.selected impls lang).apply w b)
    ∧ (∀ w b, Language.apply_decimal impls lang w b =
        (Language.selected impls lang).apply_decimal w b)
    ∧ (∀ w, Language.get_morph_marker impls lang w =
        (Language.selected impls lang).get_morph_marker w)
    ∧ (∀ w, Language.check_decimal_separator impls lang w =
        (Language.selected impls lang).check_decimal_separator w)
    ∧ (∀ b, Language.format_and_value impls lang b =
        (Language.selected impls lang).format_and_value b)
    ∧ (∀ int dec sep,
        Language.format_decimal_and_value impls lang int dec sep =
          (Language.selected impls lang).format_decimal_and_value int dec sep)
    ∧ (∀ w, Language.is_linking impls lang w =
        (Language.selected impls lang).is_linking w)
    ∧ (∀ ts, Language.basic_annotate impls lang ts =
        (Language.selected impls lang).basic_annotate ts) := by
  cases lang <;>
    exact ⟨fun _ _ => rfl, fun _ _ => rfl, fun _ => rfl, fun _ => rfl,
      fun _ => rfl, fun _ _ _ => rfl, fun _ => rfl, fun _ => rfl⟩

/-- C7: rendering is read-only and deterministic — a call of the default
`format_and_value` leaves the accumulator unchanged, and a second call on
that unchanged accumulator yields an identical (text, value) pair. -/
theorem format_and_value_readonly (b : DigitString) :
    (format_and_value_call b).2 = b
    ∧ (format_and_value_call ((format_and_value_call b).2)).1 =
      (format_and_value_call b).1 :=
  ⟨rfl, rfl⟩

/-- C8: the default `basic_annotate` is a no-op — the token vector is
returned unchanged, with the same length and every element (text and
"not a numeral" flag) intact. -/
theorem default_basic_annotate_noop (tokens : List Token) :
    default_basic_annotate tokens = tokens
    ∧ (default_basic_annotate tokens).length = tokens.length
    ∧ ∀ i : Nat, (default_basic_annotate tokens)[i]? = tokens[i]? :=
  ⟨rfl, rfl, fun _ => rfl⟩

/-- C9: executing the empty group succeeds, returning the fresh empty
accumulator. -/
theorem exec_group_nil (L : LangInterpreter) :
    exec_group L [] = Except.ok DigitString.new := rfl

/-- C10: the three marker predicates partition `MorphologicalMarker` —
exactly one of is_ordinal, is_fraction, is_none holds on every value. -/
theorem marker_predicates_partition (m : MorphologicalMarker) :
    (m.is_ordinal = true ∧ m.is_fraction = false ∧ m.is_none = false)
    ∨ (m.is_ordinal = false ∧ m.is_fraction = true ∧ m.is_none = false)
    ∨ (m.is_ordinal = false ∧ m.is_fraction = false ∧ m.is_none = true) := by
  cases m with
  | Ordinal s => exact Or.inl ⟨rfl, rfl, rfl⟩
  | Fraction s => exact Or.inr (Or.inl ⟨rfl, rfl, rfl⟩)
  | None => exact Or.inr (Or.inr ⟨rfl, rfl, rfl⟩)

end Text2Num
